import Mathlib

/-!
Verification of the `BankAccount` class from
`src/cpp/1-Encapsulation/bank_account.cpp`.

The C++ class stores five private fields (`accountNumber`, `accountHolder`,
`balance`, `accountType`, `interestRate`) and exposes validated mutators.
C++ `double` fields are embedded as `ℚ` (the demonstration only uses values
on which double arithmetic is exact); C++ `std::string` as `String`.

Each mutating method returns `bool` and, on the failure branches, prints a
message that identifies the failure kind.  We embed each method as a function
returning `Option BAError × <new state>`: `none` corresponds to the method
returning `true`, `some e` to the method returning `false` after printing the
message for error kind `e`.  The printing itself is I/O narration and is not
modelled.
-/

namespace BankAccountSpec

/-- Error kinds, one per distinct failure message printed by the C++
methods (`Invalid amount`, `Insufficient funds`, `Invalid interest rate`,
`Invalid name`). -/
inductive BAError where
  | invalidAmount
  | insufficientFunds
  | invalidInterestRate
  | invalidHolderName
deriving DecidableEq, Repr

/-- The private data members of class `BankAccount`
(bank_account.cpp lines 38-42). -/
structure BankAccount where
  accountNumber : String
  accountHolder : String
  balance : ℚ
  accountType : String
  interestRate : ℚ
deriving DecidableEq, Repr

namespace BankAccount

/-- Private helper `isValidAmount` (line 51): `return amount > 0;`. -/
def isValidAmount (amount : ℚ) : Bool :=
  decide (amount > 0)

/-- The constructor (lines 68-77): assigns every field from its argument,
with no validation.  In C++ `type` defaults to `"Savings"` and `rate` to
`0.0`; here both are passed explicitly. -/
def make (accNum holder : String) (initialBalance : ℚ)
    (type : String) (rate : ℚ) : BankAccount :=
  { accountNumber := accNum
    accountHolder := holder
    balance := initialBalance
    accountType := type
    interestRate := rate }

/-- `setInterestRate` (lines 140-151): accepts iff `rate >= 0 && rate <= 50.0`. -/
def setInterestRate (acc : BankAccount) (rate : ℚ) :
    Option BAError × BankAccount :=
  if rate ≥ 0 ∧ rate ≤ 50 then
    (none, { acc with interestRate := rate })
  else
    (some .invalidInterestRate, acc)

/-- `setAccountHolder` (lines 160-170): accepts iff `!newHolder.empty()`. -/
def setAccountHolder (acc : BankAccount) (newHolder : String) :
    Option BAError × BankAccount :=
  if ¬ newHolder.isEmpty then
    (none, { acc with accountHolder := newHolder })
  else
    (some .invalidHolderName, acc)

/-- `deposit` (lines 183-198): rejects non-positive amounts, otherwise
`balance += amount`. -/
def deposit (acc : BankAccount) (amount : ℚ) :
    Option BAError × BankAccount :=
  if ¬ isValidAmount amount then
    (some .invalidAmount, acc)
  else
    (none, { acc with balance := acc.balance + amount })

/-- `withdraw` (lines 207-230): rejects non-positive amounts, then rejects
`amount > balance`, otherwise `balance -= amount`. -/
def withdraw (acc : BankAccount) (amount : ℚ) :
    Option BAError × BankAccount :=
  if ¬ isValidAmount amount then
    (some .invalidAmount, acc)
  else if amount > acc.balance then
    (some .insufficientFunds, acc)
  else
    (none, { acc with balance := acc.balance - amount })

/-- `transfer` (lines 240-265): same two validations as `withdraw` on the
source account, then `this->balance -= amount; toAccount.balance += amount`.
The result carries (error, new source state, new destination state). -/
def transfer (acc toAccount : BankAccount) (amount : ℚ) :
    Option BAError × BankAccount × BankAccount :=
  if ¬ isValidAmount amount then
    (some .invalidAmount, acc, toAccount)
  else if amount > acc.balance then
    (some .insufficientFunds, acc, toAccount)
  else
    (none, { acc with balance := acc.balance - amount },
      { toAccount with balance := toAccount.balance + amount })

/-- `applyInterest` (lines 273-283):
`interestAmount = (balance * interestRate) / 100.0; balance += interestAmount;`
returns the interest amount together with the new state. -/
def applyInterest (acc : BankAccount) : ℚ × BankAccount :=
  let interestAmount := (acc.balance * acc.interestRate) / 100
  (interestAmount, { acc with balance := acc.balance + interestAmount })

end BankAccount

/-- One operation applied to a single tracked account, used to speak about
"any sequence of operations".  A transfer touches two accounts, so it appears
twice: once with the tracked account as source, once as destination. -/
inductive Op where
  | depositOp (amount : ℚ)
  | withdrawOp (amount : ℚ)
  | transferOutOp (other : BankAccount) (amount : ℚ)
  | transferInOp (other : BankAccount) (amount : ℚ)
  | setRateOp (rate : ℚ)
  | setHolderOp (name : String)
  | applyInterestOp

/-- State of the tracked account after one operation. -/
def applyOp (acc : BankAccount) (op : Op) : BankAccount :=
  match op with
  | .depositOp amount => (acc.deposit amount).2
  | .withdrawOp amount => (acc.withdraw amount).2
  | .transferOutOp other amount => (acc.transfer other amount).2.1
  | .transferInOp other amount => (other.transfer acc amount).2.2
  | .setRateOp rate => (acc.setInterestRate rate).2
  | .setHolderOp name => (acc.setAccountHolder name).2
  | .applyInterestOp => acc.applyInterest.2

/-- State of the tracked account after a sequence of operations. -/
def run (acc : BankAccount) (ops : List Op) : BankAccount :=
  ops.foldl applyOp acc

/-- `account1` from `main` (line 325):
`BankAccount("ACC001", "John Doe", 5000, "Savings", 3.5)`. -/
def account1 : BankAccount :=
  BankAccount.make "ACC001" "John Doe" 5000 "Savings" (7/2)

/-- `account2` from `main` (line 326):
`BankAccount("ACC002", "Jane Smith", 10000, "Checking", 1.0)`. -/
def account2 : BankAccount :=
  BankAccount.make "ACC002" "Jane Smith" 10000 "Checking" 1

/-- Helper: a single operation keeps `interestRate` inside `[0, 50]`:
no operation other than `setInterestRate` writes the field, and
`setInterestRate` only writes values it has validated. -/
theorem interestRate_applyOp (acc : BankAccount) (op : Op)
    (h : 0 ≤ acc.interestRate ∧ acc.interestRate ≤ 50) :
    0 ≤ (applyOp acc op).interestRate ∧ (applyOp acc op).interestRate ≤ 50 := by
  cases op <;>
    simp only [applyOp, BankAccount.deposit, BankAccount.withdraw,
      BankAccount.transfer, BankAccount.setInterestRate,
      BankAccount.setAccountHolder, BankAccount.applyInterest] <;>
    (try split_ifs) <;> simp_all

/-- C1: `withdraw amount` succeeds and decreases `balance` by exactly `amount`
iff `amount > 0` and `amount ≤ balance`; otherwise it fails with
`invalidAmount` when `amount ≤ 0`, and with `insufficientFunds` when
`amount > 0` but `amount > balance`, leaving the account unchanged. -/
theorem C1_withdraw_correct (acc : BankAccount) (amount : ℚ) :
    (((acc.withdraw amount).1 = none ∧
        (acc.withdraw amount).2.balance = acc.balance - amount) ↔
      (0 < amount ∧ amount ≤ acc.balance)) ∧
    (amount ≤ 0 → acc.withdraw amount = (some .invalidAmount, acc)) ∧
    (0 < amount → acc.balance < amount →
      acc.withdraw amount = (some .insufficientFunds, acc)) := by
  unfold BankAccount.withdraw BankAccount.isValidAmount
  split_ifs with h1 h2 <;> simp_all

/-- C1 witness: withdrawing 3000 from `account1` (balance 5000) succeeds and
leaves balance 2000; withdrawing 100000 fails with `insufficientFunds`. -/
theorem C1_withdraw_correct_witness :
    ((account1.withdraw 3000).1 = none ∧
      (account1.withdraw 3000).2.balance = account1.balance - 3000) ∧
    account1.withdraw 100000 = (some .insufficientFunds, account1) :=
  ⟨(C1_withdraw_correct account1 3000).1.mpr (by decide),
   (C1_withdraw_correct account1 100000).2.2 (by decide) (by decide)⟩

/-- C2: when `0 < amount ≤` the source balance, `transfer` succeeds, decreases
the source balance by exactly `amount`, increases the destination balance by
exactly `amount`, and conserves the total of the two balances. -/
theorem C2_transfer_conserves (a b : BankAccount) (amount : ℚ)
    (h1 : 0 < amount) (h2 : amount ≤ a.balance) :
    (a.transfer b amount).1 = none ∧
    (a.transfer b amount).2.1.balance = a.balance - amount ∧
    (a.transfer b amount).2.2.balance = b.balance + amount ∧
    (a.transfer b amount).2.1.balance + (a.transfer b amount).2.2.balance =
      a.balance + b.balance := by
  unfold BankAccount.transfer BankAccount.isValidAmount
  have h3 : ¬ amount > a.balance := not_lt.mpr h2
  simp [h1, h3]

/-- C2 witness: transferring 500 from `account1` (balance 5000) to `account2`
(balance 10000) behaves as stated. -/
theorem C2_transfer_conserves_witness :
    (account1.transfer account2 500).1 = none ∧
    (account1.transfer account2 500).2.1.balance = account1.balance - 500 ∧
    (account1.transfer account2 500).2.2.balance = account2.balance + 500 ∧
    (account1.transfer account2 500).2.1.balance +
        (account1.transfer account2 500).2.2.balance =
      account1.balance + account2.balance :=
  C2_transfer_conserves account1 account2 500 (by decide) (by decide)

/-- C3: whenever the validation of a mutating operation fails (the returned
error is not `none`), the operation leaves the account state exactly as it
was — for `transfer`, both accounts; in particular `deposit (-1)` always
fails with `invalidAmount` and leaves the state unchanged. -/
theorem C3_failed_ops_leave_state (acc other : BankAccount)
    (amount rate : ℚ) (name : String) :
    ((acc.deposit amount).1 ≠ none → (acc.deposit amount).2 = acc) ∧
    ((acc.withdraw amount).1 ≠ none → (acc.withdraw amount).2 = acc) ∧
    ((acc.transfer other amount).1 ≠ none →
      (acc.transfer other amount).2 = (acc, other)) ∧
    ((acc.setInterestRate rate).1 ≠ none → (acc.setInterestRate rate).2 = acc) ∧
    ((acc.setAccountHolder name).1 ≠ none → (acc.setAccountHolder name).2 = acc) ∧
    acc.deposit (-1) = (some .invalidAmount, acc) := by
  unfold BankAccount.deposit BankAccount.withdraw BankAccount.transfer
    BankAccount.setInterestRate BankAccount.setAccountHolder
    BankAccount.isValidAmount
  refine ⟨?_, ?_, ?_, ?_, ?_, ?_⟩ <;> (split_ifs <;> simp_all <;> linarith)

/-- C3 witness: on `account1`, `deposit (-1)` fails leaving the state intact,
and the failing `withdraw 100000` leaves the state intact. -/
theorem C3_failed_ops_leave_state_witness :
    account1.deposit (-1) = (some .invalidAmount, account1) ∧
    (account1.withdraw 100000).2 = account1 :=
  ⟨(C3_failed_ops_leave_state account1 account2 (-1) 0 "").2.2.2.2.2,
   (C3_failed_ops_leave_state account1 account2 100000 0 "").2.1 (by decide)⟩

/-- C4 counterexample: the constructor performs no validation, so an account
produced by construction with rate 75 has `interestRate = 75 ∉ [0, 50]`,
refuting the claim for accounts produced by construction. -/
theorem C4_counterexample :
    ¬ ((BankAccount.make "ACC003" "Eve" 0 "Savings" 75).interestRate ≤ 50) := by
  decide

/-- C4 (amended): for every account whose `interestRate` lies in `[0, 50]`
(the constructor itself does not validate), every sequence of operations
keeps `interestRate` within `[0, 50]` inclusive. -/
theorem C4_interestRate_invariant (acc : BankAccount) (ops : List Op)
    (h0 : 0 ≤ acc.interestRate) (h50 : acc.interestRate ≤ 50) :
    0 ≤ (run acc ops).interestRate ∧ (run acc ops).interestRate ≤ 50 := by
  induction ops generalizing acc with
  | nil => exact ⟨h0, h50⟩
  | cons op rest ih =>
      have h := interestRate_applyOp acc op ⟨h0, h50⟩
      simpa [run, List.foldl] using ih (applyOp acc op) h.1 h.2

/-- C4 witness: starting from `account1` (rate 3.5), a sequence containing a
rejected `setInterestRate 75` keeps the rate within bounds. -/
theorem C4_interestRate_invariant_witness :
    0 ≤ (run account1
        [Op.setRateOp 75, Op.depositOp 2000, Op.applyInterestOp]).interestRate ∧
      (run account1
        [Op.setRateOp 75, Op.depositOp 2000, Op.applyInterestOp]).interestRate ≤ 50 :=
  C4_interestRate_invariant account1
    [Op.setRateOp 75, Op.depositOp 2000, Op.applyInterestOp]
    (by norm_num [account1, BankAccount.make])
    (by norm_num [account1, BankAccount.make])

/-- C5: construction performs no validation: for every argument tuple,
including a negative `initialBalance` and an out-of-range `rate`, the
constructed account has `balance = initialBalance`, `interestRate = rate`,
and the remaining fields equal to their arguments. -/
theorem C5_construction_no_validation (accNum holder type : String)
    (initialBalance rate : ℚ) :
    (BankAccount.make accNum holder initialBalance type rate).balance =
        initialBalance ∧
    (BankAccount.make accNum holder initialBalance type rate).interestRate =
        rate ∧
    (BankAccount.make accNum holder initialBalance type rate).accountNumber =
        accNum ∧
    (BankAccount.make accNum holder initialBalance type rate).accountHolder =
        holder ∧
    (BankAccount.make accNum holder initialBalance type rate).accountType =
        type := by
  simp [BankAccount.make]

/-- C6: `setInterestRate rate` succeeds and updates `interestRate` iff
`0 ≤ rate ≤ 50`, otherwise fails with `invalidInterestRate` and leaves the
state unchanged; at the boundaries, 50 and 0 are accepted while
50.0001 = 500001/10000 and -0.0001 = -1/10000 are rejected. -/
theorem C6_setInterestRate_spec (acc : BankAccount) (rate : ℚ) :
    (0 ≤ rate ∧ rate ≤ 50 →
      acc.setInterestRate rate = (none, { acc with interestRate := rate })) ∧
    (¬ (0 ≤ rate ∧ rate ≤ 50) →
      acc.setInterestRate rate = (some .invalidInterestRate, acc)) ∧
    (acc.setInterestRate 50).1 = none ∧
    (acc.setInterestRate (500001/10000)).1 = some .invalidInterestRate ∧
    (acc.setInterestRate 0).1 = none ∧
    (acc.setInterestRate (-1/10000)).1 = some .invalidInterestRate := by
  have hgen : ∀ r : ℚ,
      (0 ≤ r ∧ r ≤ 50 →
        acc.setInterestRate r = (none, { acc with interestRate := r })) ∧
      (¬ (0 ≤ r ∧ r ≤ 50) →
        acc.setInterestRate r = (some .invalidInterestRate, acc)) := by
    intro r
    unfold BankAccount.setInterestRate
    split_ifs <;> simp_all
  exact ⟨(hgen rate).1, (hgen rate).2,
    by rw [(hgen 50).1 (by norm_num)],
    by rw [(hgen (500001/10000)).2 (by norm_num)],
    by rw [(hgen 0).1 (by norm_num)],
    by rw [(hgen (-1/10000)).2 (by norm_num)]⟩

/-- C6 witness: on `account1`, setting rate 4.5 succeeds and setting rate 75
fails leaving the state unchanged (the `main` demonstration, lines 354-358). -/
theorem C6_setInterestRate_spec_witness :
    account1.setInterestRate (9/2) =
        (none, { account1 with interestRate := 9/2 }) ∧
    account1.setInterestRate 75 = (some .invalidInterestRate, account1) :=
  ⟨(C6_setInterestRate_spec account1 (9/2)).1 (by norm_num),
   (C6_setInterestRate_spec account1 75).2.1 (by norm_num)⟩

/-- Helper: a single operation never empties `accountHolder`: only
`setAccountHolder` writes the field, and it rejects the empty string. -/
theorem holder_applyOp (acc : BankAccount) (op : Op)
    (h : acc.accountHolder ≠ "") :
    (applyOp acc op).accountHolder ≠ "" := by
  cases op <;>
    simp only [applyOp, BankAccount.deposit, BankAccount.withdraw,
      BankAccount.transfer, BankAccount.setInterestRate,
      BankAccount.setAccountHolder, BankAccount.applyInterest] <;>
    (try split_ifs) <;> simp_all [String.isEmpty_iff]

/-- C7: `applyInterest` computes `interestAmount = balance * interestRate / 100`,
adds it to `balance` and returns it, with no validation and no failure branch;
on balance 5000 and rate 3.5 it returns 175 and the new balance is 5175. -/
theorem C7_applyInterest_spec (acc : BankAccount) :
    acc.applyInterest =
      (acc.balance * acc.interestRate / 100,
        { acc with
            balance := acc.balance + acc.balance * acc.interestRate / 100 }) ∧
    (acc.balance = 5000 → acc.interestRate = 7/2 →
      acc.applyInterest.1 = 175 ∧ acc.applyInterest.2.balance = 5175) := by
  unfold BankAccount.applyInterest
  refine ⟨rfl, ?_⟩
  intro h1 h2
  simp [h1, h2]
  norm_num

/-- C7 witness: on `account1` (balance 5000, rate 3.5), `applyInterest`
returns 175 and updates the balance to 5175. -/
theorem C7_applyInterest_spec_witness :
    account1.applyInterest.1 = 175 ∧ account1.applyInterest.2.balance = 5175 :=
  (C7_applyInterest_spec account1).2
    (by norm_num [account1, BankAccount.make])
    (by norm_num [account1, BankAccount.make])

/-- C8 counterexample: the constructor performs no validation of the holder
name, so an account constructed with an empty holder name admits a successful
mutation (`deposit 100`) after which `accountHolder` is still empty,
refuting the claim as universally stated. -/
theorem C8_counterexample :
    ((BankAccount.make "ACC004" "" 0 "Savings" 0).deposit 100).1 = none ∧
    ((BankAccount.make "ACC004" "" 0 "Savings" 0).deposit 100).2.accountHolder
      = "" := by
  decide

/-- C8 (amended): for every account whose `accountHolder` is non-empty (the
constructor itself does not validate), it stays non-empty after any sequence
of operations; and `setAccountHolder name` succeeds and updates the holder iff
`name` is non-empty, otherwise fails with `invalidHolderName`, state
unchanged. -/
theorem C8_holder_spec (acc : BankAccount) (ops : List Op) (name : String)
    (h : acc.accountHolder ≠ "") :
    (run acc ops).accountHolder ≠ "" ∧
    (name ≠ "" →
      acc.setAccountHolder name = (none, { acc with accountHolder := name })) ∧
    (name = "" →
      acc.setAccountHolder name = (some .invalidHolderName, acc)) := by
  refine ⟨?_, ?_, ?_⟩
  · induction ops generalizing acc with
    | nil => exact h
    | cons op rest ih =>
        simpa [run, List.foldl] using
          ih (applyOp acc op) (holder_applyOp acc op h)
  · intro hn
    unfold BankAccount.setAccountHolder
    simp [String.isEmpty_iff, hn]
  · intro hn
    unfold BankAccount.setAccountHolder
    simp [String.isEmpty_iff, hn]

/-- C8 witness: `account1` keeps a non-empty holder through the demo rename,
and `setAccountHolder ""` fails leaving the state unchanged. -/
theorem C8_holder_spec_witness :
    (run account1 [Op.setHolderOp "John Smith"]).accountHolder ≠ "" ∧
    account1.setAccountHolder "" = (some .invalidHolderName, account1) :=
  ⟨(C8_holder_spec account1 [Op.setHolderOp "John Smith"] "" (by decide)).1,
   (C8_holder_spec account1 [] "" (by decide)).2.2 rfl⟩

/-- C9: every operation leaves `accountNumber` and `accountType` unchanged,
and touches only the fields its contract names: `deposit`, `withdraw`,
`transfer` and `applyInterest` change only balances; `setInterestRate` changes
only `interestRate`; `setAccountHolder` changes only `accountHolder`. -/
theorem C9_frame (acc other : BankAccount) (amount rate : ℚ) (name : String) :
    ((acc.deposit amount).2.accountNumber = acc.accountNumber ∧
      (acc.deposit amount).2.accountHolder = acc.accountHolder ∧
      (acc.deposit amount).2.accountType = acc.accountType ∧
      (acc.deposit amount).2.interestRate = acc.interestRate) ∧
    ((acc.withdraw amount).2.accountNumber = acc.accountNumber ∧
      (acc.withdraw amount).2.accountHolder = acc.accountHolder ∧
      (acc.withdraw amount).2.accountType = acc.accountType ∧
      (acc.withdraw amount).2.interestRate = acc.interestRate) ∧
    ((acc.transfer other amount).2.1.accountNumber = acc.accountNumber ∧
      (acc.transfer other amount).2.1.accountHolder = acc.accountHolder ∧
      (acc.transfer other amount).2.1.accountType = acc.accountType ∧
      (acc.transfer other amount).2.1.interestRate = acc.interestRate ∧
      (acc.transfer other amount).2.2.accountNumber = other.accountNumber ∧
      (acc.transfer other amount).2.2.accountHolder = other.accountHolder ∧
      (acc.transfer other amount).2.2.accountType = other.accountType ∧
      (acc.transfer other amount).2.2.interestRate = other.interestRate) ∧
    ((acc.setInterestRate rate).2.accountNumber = acc.accountNumber ∧
      (acc.setInterestRate rate).2.accountHolder = acc.accountHolder ∧
      (acc.setInterestRate rate).2.accountType = acc.accountType ∧
      (acc.setInterestRate rate).2.balance = acc.balance) ∧
    ((acc.setAccountHolder name).2.accountNumber = acc.accountNumber ∧
      (acc.setAccountHolder name).2.accountType = acc.accountType ∧
      (acc.setAccountHolder name).2.balance = acc.balance ∧
      (acc.setAccountHolder name).2.interestRate = acc.interestRate) ∧
    (acc.applyInterest.2.accountNumber = acc.accountNumber ∧
      acc.applyInterest.2.accountHolder = acc.accountHolder ∧
      acc.applyInterest.2.accountType = acc.accountType ∧
      acc.applyInterest.2.interestRate = acc.interestRate) := by
  unfold BankAccount.deposit BankAccount.withdraw BankAccount.transfer
    BankAccount.setInterestRate BankAccount.setAccountHolder
    BankAccount.applyInterest
  refine ⟨?_, ?_, ?_, ?_, ?_, ?_⟩ <;> (try split_ifs) <;> simp_all

/-- C10: when `balance ≥ 0` and `interestRate ≥ 0`, `applyInterest` leaves
the balance at `balance * (1 + interestRate / 100)`, which is at least the
old balance, so the balance does not decrease and stays non-negative. -/
theorem C10_applyInterest_nonneg (acc : BankAccount)
    (hb : 0 ≤ acc.balance) (hr : 0 ≤ acc.interestRate) :
    acc.applyInterest.2.balance =
        acc.balance * (1 + acc.interestRate / 100) ∧
    acc.balance ≤ acc.applyInterest.2.balance ∧
    0 ≤ acc.applyInterest.2.balance := by
  have ht : 0 ≤ acc.balance * acc.interestRate / 100 := by positivity
  simp only [BankAccount.applyInterest]
  refine ⟨by ring, by linarith, by linarith⟩

/-- C10 witness: on `account1` (balance 5000, rate 3.5), `applyInterest`
yields balance `5000 * (1 + 3.5/100)`, no smaller than 5000 and
non-negative. -/
theorem C10_applyInterest_nonneg_witness :
    account1.applyInterest.2.balance =
        account1.balance * (1 + account1.interestRate / 100) ∧
    account1.balance ≤ account1.applyInterest.2.balance ∧
    0 ≤ account1.applyInterest.2.balance :=
  C10_applyInterest_nonneg account1
    (by norm_num [account1, BankAccount.make])
    (by norm_num [account1, BankAccount.make])

end BankAccountSpec
